import Mathlib

/-!
Shallow embedding of the PCI transport layer (`src/pci/header.rs`) and the
block device driver (`src/pci/blk.rs`) of the virtio-drivers repository.

Hardware registers are modelled by explicit traces of register writes
(`RegWrite`) together with "device double" structures that supply the values
returned by register reads.  Machine integers are `Nat` with explicit
`% 2 ^ w` reductions at the points where the source performs a narrowing
cast or a wrapping machine operation.  A Rust `panic!` is modelled as an
`Option`/flag outcome: `none` (or `panicked = true`) means the call panicked
at that point and performed no further observable action.
-/

namespace VirtioDrivers

/-- `DeviceStatusU8::ACKNOWLEDGE` bit (value 1) from `pci/header.rs`. -/
def ACKNOWLEDGE : Nat := 1

/-- `DeviceStatusU8::DRIVER` bit (value 2) from `pci/header.rs`. -/
def DRIVER : Nat := 2

/-- `DeviceStatusU8::DRIVER_OK` bit (value 4) from `pci/header.rs`. -/
def DRIVER_OK : Nat := 4

/-- `DeviceStatusU8::FEATURES_OK` bit (value 8) from `pci/header.rs`. -/
def FEATURES_OK : Nat := 8

/-- `DeviceStatusU8::FAILED` bit (value 128) from `pci/header.rs`. -/
def FAILED : Nat := 128

/-- `DeviceStatusU8::DEVICE_NEEDS_RESET` bit (value 64) from `pci/header.rs`. -/
def DEVICE_NEEDS_RESET : Nat := 64

/-- One memory-mapped register write performed by the transport header.
Each constructor corresponds to one writable register of
`VirtIOPCICommonCfgRaw`, plus the doorbell write performed by `notify`. -/
inductive RegWrite : Type
  | deviceStatus (v : Nat)
  | deviceFeaturesSel (v : Nat)
  | driverFeaturesSel (v : Nat)
  | driverFeatures (v : Nat)
  | queueSel (v : Nat)
  | queueSize (v : Nat)
  | queueDesc (v : Nat)
  | queueDriver (v : Nat)
  | queueDevice (v : Nat)
  | queueEnable (v : Nat)
  | doorbell (addr : Nat) (v : Nat)
  deriving DecidableEq, Repr

/-- Test double for the device side of the common configuration block:
the values returned by the register reads that `begin_init` performs.
`deviceFeaturesLo`/`deviceFeaturesHi` are the 32-bit words read through the
`device_features_sel` window (selector 0 resp. 1); `statusEcho` is the value
the single `device_status.read()` in `begin_init` returns (a `u8`). -/
structure DeviceDouble where
  deviceFeaturesLo : Nat
  deviceFeaturesHi : Nat
  statusEcho : Nat
  deriving DecidableEq, Repr

/-- The 64-bit feature bitmap assembled by `read_device_features`:
low word read with selector 0, high word read with selector 1 shifted into
bits 32..64 (`device_features_bits += (read as u64) << 32`). -/
def deviceFeatures64 (dev : DeviceDouble) : Nat :=
  dev.deviceFeaturesLo % 2 ^ 32 + dev.deviceFeaturesHi % 2 ^ 32 * 2 ^ 32

/-- `VirtIOPCIHeader::read_device_features`: writes selector 0, reads the low
word, writes selector 1, reads the high word.  Returns the selector writes
performed and the assembled 64-bit bitmap. -/
def read_device_features (dev : DeviceDouble) : List RegWrite × Nat :=
  ([RegWrite.deviceFeaturesSel 0, RegWrite.deviceFeaturesSel 1], deviceFeatures64 dev)

/-- `VirtIOPCIHeader::write_driver_features`: writes selector 0 and the low
32 bits (`driver_features as u32`), then selector 1 and the high 32 bits
(`(driver_features >> 32) as u32`). -/
def write_driver_features (driver_features : Nat) : List RegWrite :=
  [RegWrite.driverFeaturesSel 0, RegWrite.driverFeatures (driver_features % 2 ^ 32),
   RegWrite.driverFeaturesSel 1, RegWrite.driverFeatures (driver_features / 2 ^ 32 % 2 ^ 32)]

/-- Observable result of one `begin_init` run: the register writes performed,
and whether the run ended in the `panic!` on failed feature negotiation. -/
structure InitRun where
  writes : List RegWrite
  panicked : Bool
  deriving DecidableEq, Repr

/-- `VirtIOPCIHeader::begin_init`: writes `device_status = ACKNOWLEDGE`, then
`device_status = DRIVER` (plain volatile writes of those flag values), reads
the device features through the two selector windows, writes the features
accepted by the `negotiate_features` callback (a `u64`), writes
`device_status = FEATURES_OK`, then reads the status back and panics when the
echoed value does not contain `FEATURES_OK`. -/
def begin_init (dev : DeviceDouble) (negotiate_features : Nat → Nat) : InitRun :=
  let rf := read_device_features dev
  { writes :=
      [RegWrite.deviceStatus ACKNOWLEDGE, RegWrite.deviceStatus DRIVER]
      ++ rf.1
      ++ write_driver_features (negotiate_features rf.2 % 2 ^ 64)
      ++ [RegWrite.deviceStatus FEATURES_OK],
    panicked := (dev.statusEcho % 2 ^ 8) &&& FEATURES_OK != FEATURES_OK }

/-- `VirtIOPCIHeader::finish_init`: a single plain volatile write of
`device_status = DRIVER_OK`. -/
def finish_init : List RegWrite := [RegWrite.deviceStatus DRIVER_OK]

/-- The subsequence of values written to the `device_status` register. -/
def statusWrites (ws : List RegWrite) : List Nat :=
  ws.filterMap fun w =>
    match w with
    | RegWrite.deviceStatus v => some v
    | _ => none

/-- The device-kind enumeration (`crate::header::DeviceType`), restricted to
the variants produced by `VirtIOPCIHeader::device_type`. -/
inductive DeviceType : Type
  | Network
  | Block
  | MemoryBallooning
  | Console
  | ScsiHost
  | EntropySource
  | _9P
  deriving DecidableEq, Repr

/-- `VirtIOPCIHeader::device_type`: maps the PCI `device_id` to a
`DeviceType`; `none` models the `panic!` of the catch-all match arm. -/
def device_type (device_id : Nat) : Option DeviceType :=
  if device_id = 0x1000 then some DeviceType.Network
  else if device_id = 0x1001 then some DeviceType.Block
  else if device_id = 0x1002 then some DeviceType.MemoryBallooning
  else if device_id = 0x1003 then some DeviceType.Console
  else if device_id = 0x1004 then some DeviceType.ScsiHost
  else if device_id = 0x1005 then some DeviceType.EntropySource
  else if device_id = 0x1009 then some DeviceType._9P
  else none

/-- A PCI base address region (the `pci::BAR` enum as matched by
`queue_notify_address`): a memory region or an I/O-port region, each
carrying its base address first. -/
inductive BAR : Type
  | Memory (addr : Nat) (size : Nat) (prefetchable : Bool) (ty : Nat)
  | Io (addr : Nat) (size : Nat)
  deriving DecidableEq, Repr

/-- The base address extracted from a `BAR` by the match in
`queue_notify_address` (`BAR::Memory(addr, ..) | BAR::IO(addr, ..) => addr`). -/
def barBaseAddr : BAR → Nat
  | BAR.Memory addr _ _ _ => addr
  | BAR.Io addr _ => addr

/-- The registers of the notify capability structure
(`VirtIOPCINotifyCapRaw`) read by `queue_notify_address`: the BAR index
(`cap.bar`, a `u8`), the capability offset (`cap.offset`, a `u32`) and the
notify-offset multiplier (`nofity_off_multiplier`, a `u32`). -/
structure NotifyCap where
  bar : Nat
  offset : Nat
  multiplier : Nat
  deriving DecidableEq, Repr

/-- The state of a `VirtIOPCIHeader` needed by `queue_notify_address` and
`notify`: the six optional BAR descriptors, the notify capability registers,
and the `queue_notify_off` register of the common configuration block (a
`u16`, valid for the currently selected queue). -/
structure VirtIOPCIHeader where
  device_id : Nat
  bars : Fin 6 → Option BAR
  notify_cap : NotifyCap
  queue_notify_off : Nat
  device_cfg_addr : Nat

/-- `VirtIOPCIHeader::queue_notify_address`: reads the BAR index from the
notify capability, panics (`none`) when the indexed BAR slot is empty (or
the index is out of bounds of the 6-entry array), and otherwise returns
`bar_base_addr + cap_offset + queue_notify_off * notify_off_mul` as `usize`
arithmetic (wrapping at `2 ^ 64`). -/
def queue_notify_address (h : VirtIOPCIHeader) : Option Nat :=
  let bar_idx := h.notify_cap.bar % 2 ^ 8
  if hidx : bar_idx < 6 then
    match h.bars ⟨bar_idx, hidx⟩ with
    | some bar =>
        some ((barBaseAddr bar % 2 ^ 64 + h.notify_cap.offset % 2 ^ 32
          + h.queue_notify_off % 2 ^ 16 * (h.notify_cap.multiplier % 2 ^ 32)) % 2 ^ 64)
    | none => none
  else none

/-- `VirtIOPCIHeader::notify`: computes the doorbell address and performs a
single 16-bit volatile write of the queue index to it; `none` models the
panic inside `queue_notify_address` (no write performed). -/
def notify (h : VirtIOPCIHeader) (queue_idx : Nat) : Option RegWrite :=
  (queue_notify_address h).map fun addr => RegWrite.doorbell addr (queue_idx % 2 ^ 16)

/-- `VirtIOPCIHeader::queue_set`: writes the queue selector (`queue as u16`),
the queue size (`size as u16`) and the three 64-bit ring addresses. -/
def queue_set (queue size desc_table_paddr avail_paddr used_paddr : Nat) : List RegWrite :=
  [RegWrite.queueSel (queue % 2 ^ 16),
   RegWrite.queueSize (size % 2 ^ 16),
   RegWrite.queueDesc (desc_table_paddr % 2 ^ 64),
   RegWrite.queueDriver (avail_paddr % 2 ^ 64),
   RegWrite.queueDevice (used_paddr % 2 ^ 64)]

/-- Test double for the per-queue address registers read by `queue_used`,
indexed by the value last written to the queue selector. -/
structure QueueRegsDouble where
  queue_desc : Nat
  queue_driver : Nat
  queue_device : Nat
  deriving DecidableEq, Repr

/-- `VirtIOPCIHeader::queue_used`: writes the queue selector (`queue as u16`)
and returns whether any of the three ring address registers of the selected
queue is non-zero. -/
def queue_used (regs : Nat → QueueRegsDouble) (queue : Nat) : List RegWrite × Bool :=
  let sel := queue % 2 ^ 16
  let r := regs sel
  ([RegWrite.queueSel sel],
   (r.queue_desc % 2 ^ 64 != 0) || (r.queue_driver % 2 ^ 64 != 0)
     || (r.queue_device % 2 ^ 64 != 0))

/-- Modelled from the spec: the fixed block size constant `BLK_SIZE` of
`crate::blk` is outside the covered sources; the spec fixes 512-byte
sectors/blocks as the unit of the block device. -/
def BLK_SIZE : Nat := 512

/-- Modelled from the spec: the block request type codes of `crate::blk`
(outside the covered sources); the block request wire format has a 4-byte
operation type code with 0 = read (`In`) and 1 = write (`Out`). -/
def ReqType.In : Nat := 0

/-- Modelled from the spec: see `ReqType.In`; 1 = write (`Out`). -/
def ReqType.Out : Nat := 1

/-- The block request record built by `read_block`/`write_block`
(`BlkReq::new(type, reserved, sector)`); the sector is a `u64`. -/
structure BlkReq where
  type_code : Nat
  reserved : Nat
  sector : Nat
  deriving DecidableEq, Repr

/-- Modelled from the spec: the block response status of `crate::blk`
(outside the covered sources); a one-byte code with `Ok`, and nonzero error
codes with at least an I/O error and an unsupported-request code
distinguished (`NotReady` is the zero-initialized default before the device
writes the response). -/
inductive RespStatus : Type
  | Ok
  | IoErr
  | Unsupported
  | NotReady
  deriving DecidableEq, Repr

/-- Modelled from the spec: the crate-level error type `crate::Error`
(outside the covered sources).  `IoError` is the value returned on a non-Ok
response status; `QueueError` stands for any failure value returned by the
Queue collaborator (for example, ring full). -/
inductive Error : Type
  | IoError
  | QueueError
  deriving DecidableEq, Repr

/-- Test double for the Queue collaborator (`crate::queue::VirtQueue`,
out of scope) during one `read_block`/`write_block` call: the result of
`queue.add`, the result of `queue.pop_used` once `can_pop` became true, and
the status the device wrote into the response buffer by completion time. -/
structure QueueDouble where
  addResult : Except Error Unit
  popResult : Except Error Unit
  respStatus : RespStatus
  deriving Repr

/-- Outcome of one `read_block`/`write_block` call: success, a propagated or
produced `Error`, or the `assert_eq!(buf.len(), BLK_SIZE)` assertion
failure. -/
inductive CallOutcome : Type
  | ok
  | err (e : Error)
  | assertionFailure
  deriving DecidableEq, Repr

/-- Observable run of one `read_block`/`write_block` call: its outcome, the
request it built (none when the assertion failed first), whether
`queue.add` was invoked, and the queue indices written to the doorbell. -/
structure BlkCallRun where
  outcome : CallOutcome
  request : Option BlkReq
  submitted : Bool
  doorbells : List Nat
  deriving DecidableEq, Repr

/-- `VirtIOBlkPCI::read_block`: asserts `buf.len() == BLK_SIZE` (assertion
failure stops the call before anything is submitted), builds a
`BlkReq::new(ReqType::In, 0, block_id as u64)` and a zeroed response,
submits them via `queue.add` (propagating its error with `?`), notifies
queue 0, spins until `can_pop`, pops (`pop_used()?`), and returns `Ok` when
the response status is `Ok` and `Err(Error::IoError)` otherwise. -/
def read_block (q : QueueDouble) (block_id : Nat) (bufLen : Nat) : BlkCallRun :=
  if bufLen = BLK_SIZE then
    let req : BlkReq := { type_code := ReqType.In, reserved := 0, sector := block_id % 2 ^ 64 }
    match q.addResult with
    | Except.error e =>
        { outcome := CallOutcome.err e, request := some req, submitted := true, doorbells := [] }
    | Except.ok _ =>
        match q.popResult with
        | Except.error e =>
            { outcome := CallOutcome.err e, request := some req, submitted := true,
              doorbells := [0] }
        | Except.ok _ =>
            { outcome :=
                match q.respStatus with
                | RespStatus.Ok => CallOutcome.ok
                | _ => CallOutcome.err Error.IoError,
              request := some req, submitted := true, doorbells := [0] }
  else
    { outcome := CallOutcome.assertionFailure, request := none, submitted := false,
      doorbells := [] }

/-- `VirtIOBlkPCI::write_block`: same discipline as `read_block`, with a
`ReqType::Out` request and the data buffer outbound. -/
def write_block (q : QueueDouble) (block_id : Nat) (bufLen : Nat) : BlkCallRun :=
  if bufLen = BLK_SIZE then
    let req : BlkReq := { type_code := ReqType.Out, reserved := 0, sector := block_id % 2 ^ 64 }
    match q.addResult with
    | Except.error e =>
        { outcome := CallOutcome.err e, request := some req, submitted := true, doorbells := [] }
    | Except.ok _ =>
        match q.popResult with
        | Except.error e =>
            { outcome := CallOutcome.err e, request := some req, submitted := true,
              doorbells := [0] }
        | Except.ok _ =>
            { outcome :=
                match q.respStatus with
                | RespStatus.Ok => CallOutcome.ok
                | _ => CallOutcome.err Error.IoError,
              request := some req, submitted := true, doorbells := [0] }
  else
    { outcome := CallOutcome.assertionFailure, request := none, submitted := false,
      doorbells := [] }

/-- The `VirtIOBlkPCI` driver state relevant to the claims: the device
capacity cached at construction time. -/
structure VirtIOBlkPCI where
  capacity : Nat
  deriving DecidableEq, Repr

/-- `read_block` as a method on the driver state: the source never assigns
to `self.capacity`, so the driver state is returned unchanged. -/
def VirtIOBlkPCI.read_block (d : VirtIOBlkPCI) (q : QueueDouble) (block_id bufLen : Nat) :
    BlkCallRun × VirtIOBlkPCI :=
  (VirtioDrivers.read_block q block_id bufLen, d)

/-- `write_block` as a method on the driver state: the source never assigns
to `self.capacity`, so the driver state is returned unchanged. -/
def VirtIOBlkPCI.write_block (d : VirtIOBlkPCI) (q : QueueDouble) (block_id bufLen : Nat) :
    BlkCallRun × VirtIOBlkPCI :=
  (VirtioDrivers.write_block q block_id bufLen, d)

/-- The feature-negotiation closure `VirtIOBlkPCI::new` passes to
`begin_init`: `BlkFeature::from_bits_truncate(features) & BlkFeature::empty()`,
i.e. the intersection with the empty feature set, which is always 0. -/
def blkNegotiate (features : Nat) : Nat := features &&& 0

/-- Observable run of `VirtIOBlkPCI::new`: the register writes performed
through the transport header, the number of volatile reads of the
`capacity` field of the device configuration block, and the constructed
driver (`none` when `begin_init` panicked or queue binding failed). -/
structure NewRun where
  regWrites : List RegWrite
  capacityReads : Nat
  result : Option VirtIOBlkPCI
  deriving DecidableEq, Repr

/-- `VirtIOBlkPCI::new`: runs `begin_init` negotiating the empty feature
set (a panic there ends the run); then reads the configuration block —
`info!("found a block device of size {}KB", config.capacity.read() / 2)`
performs one volatile read of the capacity field when info-level logging is
enabled (`logEnabled`); then binds the queue (`VirtQueue::new_pci`, an
out-of-scope collaborator modelled by the register writes it performs and
an optional failure, which `?` propagates); then calls `finish_init`; and
finally reads `config.capacity.read()` once more for the cached `capacity`
field (a `u64` register). -/
def VirtIOBlkPCI.new (dev : DeviceDouble) (logEnabled : Bool)
    (queueBind : List RegWrite × Option Error) (capacityReg : Nat) : NewRun :=
  let init := begin_init dev blkNegotiate
  if init.panicked then
    { regWrites := init.writes, capacityReads := 0, result := none }
  else
    let logReads := if logEnabled then 1 else 0
    match queueBind.2 with
    | some _ =>
        { regWrites := init.writes ++ queueBind.1, capacityReads := logReads, result := none }
    | none =>
        { regWrites := init.writes ++ queueBind.1 ++ finish_init,
          capacityReads := logReads + 1,
          result := some { capacity := capacityReg % 2 ^ 64 } }

/-- A device double that echoes a status containing `FEATURES_OK` (so
negotiation succeeds) and offers a small feature bitmap. -/
def devOk : DeviceDouble :=
  { deviceFeaturesLo := 0x30, deviceFeaturesHi := 0x1, statusEcho := 8 }

/-- A device double that never sets `FEATURES_OK`: every status read
returns 0. -/
def devBad : DeviceDouble :=
  { deviceFeaturesLo := 0, deviceFeaturesHi := 0, statusEcho := 0 }

/-- A concrete notify capability: BAR index 0, offset `0x3000`,
multiplier 4. -/
def capFixture : NotifyCap := { bar := 0, offset := 0x3000, multiplier := 4 }

/-- A concrete header whose BAR 0 is a memory region based at
`0x40000000`, with `queue_notify_off = 2`. -/
def headerFixture : VirtIOPCIHeader :=
  { device_id := 0x1001,
    bars := fun j => if j.val = 0 then some (BAR.Memory 0x40000000 0x4000 false 0) else none,
    notify_cap := capFixture,
    queue_notify_off := 2,
    device_cfg_addr := 0x5000 }

/-- The same header with every BAR slot empty. -/
def headerNoBar : VirtIOPCIHeader := { headerFixture with bars := fun _ => none }

/-- A queue double whose submissions and pops succeed and whose response
status is an I/O error. -/
def qOkIoErr : QueueDouble :=
  { addResult := Except.ok (), popResult := Except.ok (), respStatus := RespStatus.IoErr }

/-- All-zero per-queue address registers. -/
def regsZero : Nat → QueueRegsDouble := fun _ => ⟨0, 0, 0⟩

/-- The status-write discipline asserted by claim C1, on the list of values
written to the status register during a run: the first write is the reset
to zero, and every later write contains all bits of the previously written
value. -/
def orAccumulatingStatus (ws : List Nat) : Prop :=
  ws.head? = some 0 ∧ List.Chain' (fun prev cur => prev &&& cur = prev) ws

/-- Claim C1, counterexample: a `begin_init` followed by `finish_init`
writes the status values 1 (ACKNOWLEDGE), 2 (DRIVER), 8 (FEATURES_OK),
4 (DRIVER_OK): there is no initial zero write, and the DRIVER write (2)
does not contain the previously written ACKNOWLEDGE bit (1), so the
writes are not OR-accumulating. -/
theorem C1_counterexample :
    statusWrites ((begin_init devOk blkNegotiate).writes ++ finish_init) = [1, 2, 8, 4]
    ∧ ¬ orAccumulatingStatus [1, 2, 8, 4] := by
  constructor
  · rfl
  · intro hacc
    have h0 := hacc.1
    simp [List.head?] at h0

/-- Claim C1, amended: every status-register write of
`begin_init`/`finish_init` is a plain write of a single flag constant —
the run writes exactly the sequence ACKNOWLEDGE, DRIVER, FEATURES_OK,
DRIVER_OK, with no initial zero write and without preserving previously
set bits (in particular `finish_init` writes DRIVER_OK alone, clobbering
prior bits). -/
theorem C1_status_write_sequence (dev : DeviceDouble) (neg : Nat → Nat) :
    statusWrites ((begin_init dev neg).writes ++ finish_init)
      = [ACKNOWLEDGE, DRIVER, FEATURES_OK, DRIVER_OK] := by
  simp [statusWrites, begin_init, finish_init, read_device_features, write_driver_features]

/-- Claim C2, counterexample: the first register write of `begin_init` is
`device_status = ACKNOWLEDGE` (value 1), not the claimed reset write of
the empty value 0. -/
theorem C2_counterexample :
    (begin_init devOk blkNegotiate).writes.head? = some (RegWrite.deviceStatus ACKNOWLEDGE)
    ∧ RegWrite.deviceStatus ACKNOWLEDGE ≠ RegWrite.deviceStatus 0 := by
  constructor
  · rfl
  · decide

/-- Claim C2, amended: `begin_init` performs no reset-to-zero write; its
register-write trace is exactly: status ACKNOWLEDGE, status DRIVER, device
feature selector 0, device feature selector 1 (the two 32-bit read windows,
composing the 64-bit bitmap low word plus high word shifted into bits
32–63), then the driver-feature writes of the negotiate callback's result,
then status FEATURES_OK — so the full feature bitmap is read before the
negotiate callback's result is used. -/
theorem C2_begin_init_trace (dev : DeviceDouble) (neg : Nat → Nat) :
    (begin_init dev neg).writes =
      [RegWrite.deviceStatus ACKNOWLEDGE, RegWrite.deviceStatus DRIVER,
       RegWrite.deviceFeaturesSel 0, RegWrite.deviceFeaturesSel 1,
       RegWrite.driverFeaturesSel 0,
       RegWrite.driverFeatures (neg (deviceFeatures64 dev) % 2 ^ 64 % 2 ^ 32),
       RegWrite.driverFeaturesSel 1,
       RegWrite.driverFeatures (neg (deviceFeatures64 dev) % 2 ^ 64 / 2 ^ 32 % 2 ^ 32),
       RegWrite.deviceStatus FEATURES_OK] := rfl

/-- Claim C3: `begin_init` panics exactly when the status value read back
after the FEATURES_OK write does not contain the FEATURES_OK bit; the
FEATURES_OK write is the last register write of `begin_init`, and when the
check fails the whole block-driver construction performs no further
register writes (no queue programming) and yields no driver. -/
theorem C3_features_ok_check (dev : DeviceDouble) (neg : Nat → Nat) (logE : Bool)
    (qb : List RegWrite × Option Error) (cap : Nat) :
    ((begin_init dev neg).panicked = true
      ↔ (dev.statusEcho % 2 ^ 8) &&& FEATURES_OK ≠ FEATURES_OK)
    ∧ (begin_init dev neg).writes.getLast? = some (RegWrite.deviceStatus FEATURES_OK)
    ∧ ((begin_init dev blkNegotiate).panicked = true →
        (VirtIOBlkPCI.new dev logE qb cap).regWrites = (begin_init dev blkNegotiate).writes
        ∧ (VirtIOBlkPCI.new dev logE qb cap).result = none) := by
  refine ⟨?_, ?_, fun hp => ?_⟩
  · simp [begin_init, bne_iff_ne]
  · rfl
  · simp [VirtIOBlkPCI.new, hp]

/-- Claim C3, witness: with a double that echoes status 0, `begin_init`
panics and block-driver construction stops with only `begin_init`'s own
register writes performed. -/
theorem C3_features_ok_check_witness :
    (begin_init devBad blkNegotiate).panicked = true
    ∧ (VirtIOBlkPCI.new devBad true ([RegWrite.queueSel 0], none) 7).regWrites
        = (begin_init devBad blkNegotiate).writes :=
  ⟨by decide,
   ((C3_features_ok_check devBad blkNegotiate true ([RegWrite.queueSel 0], none) 7).2.2
      (by decide)).1⟩

/-- Claim C4: when the notify capability's BAR index names an existing BAR
with base `B`, the capability offset is `C`, the selected queue's notify
offset is `Q` and the multiplier is `M` (all in their register ranges, with
the sum below `2 ^ 64`), `notify` performs exactly one 16-bit doorbell
write of the queue index at address `B + C + Q * M`. -/
theorem C4_notify_address (h : VirtIOPCIHeader) (i : Fin 6) (bar : BAR) (q : Nat)
    (hbar : h.notify_cap.bar % 2 ^ 8 = i.val)
    (hsome : h.bars i = some bar)
    (hB : barBaseAddr bar < 2 ^ 64)
    (hC : h.notify_cap.offset < 2 ^ 32)
    (hQ : h.queue_notify_off < 2 ^ 16)
    (hM : h.notify_cap.multiplier < 2 ^ 32)
    (hsum : barBaseAddr bar + h.notify_cap.offset
      + h.queue_notify_off * h.notify_cap.multiplier < 2 ^ 64)
    (hq : q < 2 ^ 16) :
    notify h q = some (RegWrite.doorbell
      (barBaseAddr bar + h.notify_cap.offset + h.queue_notify_off * h.notify_cap.multiplier)
      q) := by
  rcases i with ⟨iv, hlt⟩
  simp only [notify, queue_notify_address, hbar]
  rw [dif_pos hlt, hsome]
  simp only [Option.map_some', Option.some.injEq]
  rw [Nat.mod_eq_of_lt hB, Nat.mod_eq_of_lt hC, Nat.mod_eq_of_lt hQ, Nat.mod_eq_of_lt hM,
    Nat.mod_eq_of_lt hsum, Nat.mod_eq_of_lt hq]

/-- Claim C4, witness: on the concrete fixture (BAR 0 based at
`0x40000000`, offset `0x3000`, notify offset 2, multiplier 4) the doorbell
write goes to `0x40000000 + 0x3000 + 2 * 4`. -/
theorem C4_notify_address_witness :
    notify headerFixture 1
      = some (RegWrite.doorbell (0x40000000 + 0x3000 + 2 * 4) 1) :=
  C4_notify_address headerFixture 0 (BAR.Memory 0x40000000 0x4000 false 0) 1
    (by decide) (by decide) (by decide) (by decide) (by decide) (by decide) (by decide)
    (by decide)

/-- Claim C5: `read_block` and `write_block` end in the assertion failure
exactly when the buffer length differs from `BLK_SIZE`, and the Queue
submission is invoked exactly when the length equals `BLK_SIZE` — a
wrong-sized buffer is never submitted, a correctly sized one always passes
the assertion. -/
theorem C5_block_size_assertion (q : QueueDouble) (block_id bufLen : Nat) :
    ((read_block q block_id bufLen).outcome = CallOutcome.assertionFailure ↔ bufLen ≠ BLK_SIZE)
    ∧ (read_block q block_id bufLen).submitted = (bufLen == BLK_SIZE)
    ∧ ((write_block q block_id bufLen).outcome = CallOutcome.assertionFailure ↔ bufLen ≠ BLK_SIZE)
    ∧ (write_block q block_id bufLen).submitted = (bufLen == BLK_SIZE) := by
  rcases q with ⟨addR, popR, resp⟩
  by_cases hb : bufLen = BLK_SIZE
  · cases addR <;> cases popR <;> cases resp <;>
      simp [read_block, write_block, hb]
  · simp [read_block, write_block, hb]

/-- Claim C6: with a successful submission and pop, `read_block` and
`write_block` succeed exactly when the response status is `Ok` and
otherwise return `Error::IoError`; a Queue submission failure is returned
as the call's own failure value, unchanged. -/
theorem C6_response_status (q : QueueDouble) (block_id : Nat)
    (hadd : q.addResult = Except.ok ()) (hpop : q.popResult = Except.ok ()) :
    (((read_block q block_id BLK_SIZE).outcome = CallOutcome.ok ↔ q.respStatus = RespStatus.Ok)
      ∧ (q.respStatus ≠ RespStatus.Ok →
          (read_block q block_id BLK_SIZE).outcome = CallOutcome.err Error.IoError))
    ∧ (((write_block q block_id BLK_SIZE).outcome = CallOutcome.ok ↔ q.respStatus = RespStatus.Ok)
      ∧ (q.respStatus ≠ RespStatus.Ok →
          (write_block q block_id BLK_SIZE).outcome = CallOutcome.err Error.IoError))
    ∧ ∀ e : Error,
        (read_block { q with addResult := Except.error e } block_id BLK_SIZE).outcome
          = CallOutcome.err e
        ∧ (write_block { q with addResult := Except.error e } block_id BLK_SIZE).outcome
          = CallOutcome.err e := by
  refine ⟨⟨?_, fun hne => ?_⟩, ⟨?_, fun hne => ?_⟩, fun e => ⟨?_, ?_⟩⟩ <;>
    cases hs : q.respStatus <;>
      first
        | exact absurd hs hne
        | simp [read_block, write_block, hadd, hpop, hs]

/-- Claim C6, witness: with successful submission and pop and an `IoErr`
response status, `read_block` returns `Error::IoError`. -/
theorem C6_response_status_witness :
    (read_block qOkIoErr 0 BLK_SIZE).outcome = CallOutcome.err Error.IoError :=
  (C6_response_status qOkIoErr 0 rfl rfl).1.2 (by decide)

/-- Claim C7: `device_type` maps the seven known PCI device ids to their
device kinds, and returns the panic outcome (`none`) exactly on the ids
outside that set — in particular on `0x9999`. -/
theorem C7_device_type_map :
    (device_type 0x1000 = some DeviceType.Network
      ∧ device_type 0x1001 = some DeviceType.Block
      ∧ device_type 0x1002 = some DeviceType.MemoryBallooning
      ∧ device_type 0x1003 = some DeviceType.Console
      ∧ device_type 0x1004 = some DeviceType.ScsiHost
      ∧ device_type 0x1005 = some DeviceType.EntropySource
      ∧ device_type 0x1009 = some DeviceType._9P)
    ∧ device_type 0x9999 = none
    ∧ ∀ id, device_type id = none ↔
        id ∉ ([0x1000, 0x1001, 0x1002, 0x1003, 0x1004, 0x1005, 0x1009] : List Nat) := by
  refine ⟨by decide, by decide, fun id => ?_⟩
  simp only [device_type, List.mem_cons, List.not_mem_nil, or_false]
  split_ifs with h1 h2 h3 h4 h5 h6 h7 <;> simp_all

/-- Claim C8, counterexample: with info-level logging enabled, a successful
`VirtIOBlkPCI::new` reads the capacity field twice (once in the log
statement, once for the cached field), not exactly once. -/
theorem C8_counterexample :
    (VirtIOBlkPCI.new devOk true ([], none) 100).capacityReads = 2 ∧ (2 : Nat) ≠ 1 := by
  constructor
  · rfl
  · decide

/-- Claim C8, amended: during a successful construction the capacity field
is read once for the cached value, plus one additional read inside the
info-level log statement when logging is enabled (two reads total in that
case); the cached capacity is the register value, and neither `read_block`
nor `write_block` ever changes it. -/
theorem C8_capacity_read_and_cache (dev : DeviceDouble) (qws : List RegWrite) (cap : Nat)
    (hok : (begin_init dev blkNegotiate).panicked = false) :
    (VirtIOBlkPCI.new dev false (qws, none) cap).capacityReads = 1
    ∧ (VirtIOBlkPCI.new dev true (qws, none) cap).capacityReads = 2
    ∧ (VirtIOBlkPCI.new dev false (qws, none) cap).result = some { capacity := cap % 2 ^ 64 }
    ∧ ∀ (d : VirtIOBlkPCI) (q : QueueDouble) (blk len : Nat),
        (d.read_block q blk len).2.capacity = d.capacity
        ∧ (d.write_block q blk len).2.capacity = d.capacity := by
  refine ⟨?_, ?_, ?_, fun d q blk len => ⟨rfl, rfl⟩⟩ <;>
    simp [VirtIOBlkPCI.new, hok]

/-- Claim C8, witness: on a successfully negotiating double the capacity
read counts are 1 without logging and 2 with logging. -/
theorem C8_capacity_read_and_cache_witness :
    (VirtIOBlkPCI.new devOk false ([], none) 100).capacityReads = 1
    ∧ (VirtIOBlkPCI.new devOk true ([], none) 100).capacityReads = 2 :=
  ⟨(C8_capacity_read_and_cache devOk [] 100 (by decide)).1,
   (C8_capacity_read_and_cache devOk [] 100 (by decide)).2.1⟩

/-- Claim C9: when the BAR slot named by the notify capability's bar-index
register is empty, `notify` panics (`none`) and performs no doorbell write;
every doorbell write `notify` does produce requires that BAR to exist and
is a single 16-bit write of the queue index. -/
theorem C9_notify_requires_bar (h : VirtIOPCIHeader) (q : Nat) (i : Fin 6)
    (hbar : h.notify_cap.bar % 2 ^ 8 = i.val) :
    (h.bars i = none → notify h q = none)
    ∧ ∀ w, notify h q = some w →
        (∃ b, h.bars i = some b) ∧ ∃ a, w = RegWrite.doorbell a (q % 2 ^ 16) := by
  rcases i with ⟨iv, hlt⟩
  constructor
  · intro hnone
    simp only [notify, queue_notify_address, hbar]
    rw [dif_pos hlt, hnone]
    rfl
  · intro w hw
    simp only [notify, queue_notify_address, hbar] at hw
    rw [dif_pos hlt] at hw
    cases hb : h.bars ⟨iv, hlt⟩ with
    | none => rw [hb] at hw; simp at hw
    | some b =>
        rw [hb] at hw
        simp only [Option.map_some', Option.some.injEq] at hw
        exact ⟨⟨b, rfl⟩, _, hw.symm⟩

/-- Claim C9, witness: on a header with every BAR slot empty, `notify`
panics and performs no write. -/
theorem C9_notify_requires_bar_witness : notify headerNoBar 3 = none :=
  (C9_notify_requires_bar headerNoBar 3 0 (by decide)).1 rfl

/-- Claim C10: `queue_set` writes `queue mod 2 ^ 16` to the queue selector
and `size mod 2 ^ 16` to the queue-size register, so any size of 65536 or
more is programmed as a different, strictly smaller value; `queue_used`
applies the same 16-bit truncation to the queue index it writes to the
selector. -/
theorem C10_queue_index_size_truncation (queue size desc avail used : Nat)
    (regs : Nat → QueueRegsDouble) (hs : 2 ^ 16 ≤ size) :
    (queue_set queue size desc avail used).get? 0 = some (RegWrite.queueSel (queue % 2 ^ 16))
    ∧ (queue_set queue size desc avail used).get? 1 = some (RegWrite.queueSize (size % 2 ^ 16))
    ∧ size % 2 ^ 16 ≠ size ∧ size % 2 ^ 16 < size
    ∧ (queue_used regs queue).1 = [RegWrite.queueSel (queue % 2 ^ 16)] := by
  refine ⟨rfl, rfl, ?_, ?_, rfl⟩ <;> omega

/-- Claim C10, witness: a requested size of 65536 is programmed as
`65536 mod 2 ^ 16`, a different and strictly smaller value. -/
theorem C10_queue_index_size_truncation_witness :
    (queue_set 3 65536 0 0 0).get? 1 = some (RegWrite.queueSize (65536 % 2 ^ 16))
    ∧ 65536 % 2 ^ 16 ≠ 65536 ∧ 65536 % 2 ^ 16 < 65536 :=
  ⟨(C10_queue_index_size_truncation 3 65536 0 0 0 regsZero (by decide)).2.1,
   (C10_queue_index_size_truncation 3 65536 0 0 0 regsZero (by decide)).2.2.1,
   (C10_queue_index_size_truncation 3 65536 0 0 0 regsZero (by decide)).2.2.2.1⟩

end VirtioDrivers
